import Mathlib

/-!
Shallow embedding of the volatility-smile construction pipeline found in
src/crypto_research/malz_vol_smile_approximation.ipynb.

The notebook works on a pandas DataFrame of option quotes.  We model the
DataFrame as a `List Quote`, float values as exact rationals (reals for the
purely algebraic facts about the evaluator), and the IEEE not-a-number values
that pandas produces for the mean of an empty selection as `Option ℚ`
(`none` plays the role of NaN, and the arithmetic on `Option ℚ` propagates
`none` exactly as float arithmetic propagates NaN).  A Python exception is
modelled with `Except`.
-/

namespace Malz

/-- The `option_type` column: each quote is a call or a put. -/
inductive OptionType
  | call
  | put
deriving DecidableEq

/-- One row of the quote DataFrame, keeping the columns the notebook actually
uses downstream (`option_type`, `strike`, `bid_iv`, `ask_iv`,
`underlying_price`, `expiration_timestamp`, and the flattened greeks `delta`).
`instrument_name` and `mark_iv` are selected by the notebook but never read
again, so they are omitted from the model. -/
structure Quote where
  option_type : OptionType
  strike : ℚ
  bid_iv : ℚ
  ask_iv : ℚ
  underlying_price : ℚ
  expiration_timestamp : ℕ
  delta : ℚ
deriving DecidableEq

/-- Round to the nearest integer, ties to even.  This is the rounding used
both by Python's builtin `round` (in `avg_price = round(df.underlying_price.mean())`)
and by numpy/pandas `Series.round` (in the delta buckets). -/
def roundHalfEven (q : ℚ) : ℤ :=
  if q - ⌊q⌋ < 1/2 then ⌊q⌋
  else if q - ⌊q⌋ > 1/2 then ⌊q⌋ + 1
  else if ⌊q⌋ % 2 = 0 then ⌊q⌋ else ⌊q⌋ + 1

/-- `((calls.delta)*100).round(-1)`: the call-side delta bucket.  pandas
`round(-1)` rounds to the nearest multiple of ten, ties to the even multiple,
which is rounding `x/10` half-to-even and scaling back by ten. -/
def callBucket (delta : ℚ) : ℚ :=
  10 * roundHalfEven (delta * 100 / 10)

/-- `(abs(puts.delta)*100).round(-1)`: the put-side delta bucket; put deltas
are negative, so their absolute value is taken first. -/
def putBucket (delta : ℚ) : ℚ :=
  callBucket |delta|

/-- `put_delta_iv(delta, rr, fly, atm)`: the Malz quadratic approximation,
`atm + 2*rr*(delta-0.50) + 16*fly*((delta-0.50))**2`.  The source computes it
on floats; we state it over any field so the same definition serves the exact
rational pipeline and the real-valued algebraic facts. -/
def put_delta_iv {α : Type} [Field α] (delta rr fly atm : α) : α :=
  atm + 2 * rr * (delta - 0.50) + 16 * fly * ((delta - 0.50)) ^ 2

/-- `maturities = list(set(df.expiration_timestamp))`: the distinct expiry
timestamps.  CPython enumerates a set in hash-table order, which is
implementation defined and in general not sorted; we model the enumeration
with `List.dedup`, which likewise returns the distinct elements in an order
that is not sorted (for pairwise-distinct inputs it is the input order). -/
def maturities (df : List Quote) : List ℕ :=
  (df.map (fun q => q.expiration_timestamp)).dedup

/-- Failure modes.  `indexError` models the Python `IndexError` raised by
`maturities[0]` on an empty list.  `emptyInputError` and `missingExpiryError`
model the error taxonomy that the specification describes for the Quote
Normalizer; they appear here only so that statements can compare the code's
actual failure against the specified one — no code path produces them. -/
inductive Err
  | indexError
  | emptyInputError
  | missingExpiryError
deriving DecidableEq

/-- `df = df[df.expiration_timestamp==maturities[0]]`: restrict the quotes to
the first enumerated expiry.  `maturities[0]` raises `IndexError` when there
are no quotes at all. -/
def selectEarliest (df : List Quote) : Except Err (List Quote) :=
  match (maturities df).head? with
  | none => .error .indexError
  | some m => .ok (df.filter fun q => q.expiration_timestamp == m)

/-- `df['mid_iv'] = (df.bid_iv + df.ask_iv)/2`. -/
def mid_iv (q : Quote) : ℚ :=
  (q.bid_iv + q.ask_iv) / 2

/-- `calls = df[df.option_type == 'call']`. -/
def calls (df : List Quote) : List Quote :=
  df.filter fun q => decide (q.option_type = OptionType.call)

/-- `puts = df[df.option_type == 'put']`. -/
def puts (df : List Quote) : List Quote :=
  df.filter fun q => decide (q.option_type = OptionType.put)

/-- pandas `Series.mean()`: the arithmetic mean, NaN (here `none`) for an
empty series. -/
def mean (xs : List ℚ) : Option ℚ :=
  if xs.isEmpty then none else some (xs.sum / xs.length)

/-- `avg_price = round(df.underlying_price.mean())`: Python `round` is
half-to-even. -/
def avg_price (df : List Quote) : Option ℤ :=
  (mean (df.map fun q => q.underlying_price)).map roundHalfEven

/-- `atm_iv = df[(df.strike >= avg_price-10) & (df.strike <= avg_price+10)].mid_iv.mean()`:
mean mid-vol over the quotes whose strike is within ten price units of the
rounded mean underlying price.  The two boolean masks joined by `&` are
modelled as one conjunction. -/
def atm_iv (df : List Quote) : Option ℚ :=
  (avg_price df).bind fun a =>
    mean ((df.filter fun q =>
      decide ((a : ℚ) - 10 ≤ q.strike ∧ q.strike ≤ (a : ℚ) + 10)).map mid_iv)

/-- `call_25D_iv = calls[(calls.delta == 20) | (calls.delta == 30)].mid_iv.mean()`
(the `delta` column holds the bucket at this point). -/
def call_25D_iv (cs : List Quote) : Option ℚ :=
  mean ((cs.filter fun q =>
    decide (callBucket q.delta = 20 ∨ callBucket q.delta = 30)).map mid_iv)

/-- `put_25D_iv = puts[(puts.delta == 20) | (puts.delta == 30)].mid_iv.mean()`. -/
def put_25D_iv (ps : List Quote) : Option ℚ :=
  mean ((ps.filter fun q =>
    decide (putBucket q.delta = 20 ∨ putBucket q.delta = 30)).map mid_iv)

/-- Float addition with NaN propagation, on the `Option ℚ` model. -/
def nadd : Option ℚ → Option ℚ → Option ℚ
  | some a, some b => some (a + b)
  | _, _ => none

/-- Float subtraction with NaN propagation, on the `Option ℚ` model. -/
def nsub : Option ℚ → Option ℚ → Option ℚ
  | some a, some b => some (a - b)
  | _, _ => none

/-- Halving with NaN propagation, on the `Option ℚ` model. -/
def nhalf (x : Option ℚ) : Option ℚ :=
  x.map fun a => a / 2

/-- `rr25D_iv = call_25D_iv - put_25D_iv`. -/
def rr25D_iv (call25 put25 : Option ℚ) : Option ℚ :=
  nsub call25 put25

/-- `fly25D_iv = (call_25D_iv + put_25D_iv)/2 - atm_iv`. -/
def fly25D_iv (call25 put25 atm : Option ℚ) : Option ℚ :=
  nsub (nhalf (nadd call25 put25)) atm

/-- `np.arange(start, stop, step)` for positive step: `ceil((stop-start)/step)`
evenly spaced values beginning at `start` (the length is clamped at zero for a
negative count, which `Int.toNat` does). -/
def npArange (start stop step : ℚ) : List ℚ :=
  (List.range ⌈(stop - start) / step⌉.toNat).map fun i : ℕ => start + (i : ℚ) * step

/-- The evaluator applied with possibly-NaN parameters: the float result of
`put_delta_iv` is NaN exactly when one of `rr`, `fly`, `atm` is. -/
def put_delta_ivNaN (delta : ℚ) (rr fly atm : Option ℚ) : Option ℚ :=
  match rr, fly, atm with
  | some r, some f, some a => some (put_delta_iv delta r f a)
  | _, _, _ => none

/-- `put_delta_aprx = [put_delta_iv(i, rr25D_iv, fly25D_iv, atm_iv) for i in np.arange(0.01, 1, 0.01)]`. -/
def put_delta_aprx_raw (rr fly atm : Option ℚ) : List (Option ℚ) :=
  (npArange (1/100) 1 (1/100)).map fun d => put_delta_ivNaN d rr fly atm

/-- `put_delta_aprx = [0 if math.isnan(x) else x for x in put_delta_aprx]`:
every NaN sample is replaced by zero. -/
def nanToZero (xs : List (Option ℚ)) : List ℚ :=
  xs.map fun x => x.getD 0

/-- The sampled smile curve for plotting: the delta grid `np.arange(0.01, 1, 0.01)`
paired with the evaluator values computed by the list comprehension, for
non-NaN parameters. -/
def sampled_curve (rr fly atm : ℚ) : List (ℚ × ℚ) :=
  (npArange (1/100) 1 (1/100)).map fun d => (d, put_delta_iv d rr fly atm)

/-- The full pipeline of the notebook on one quote snapshot: select the first
enumerated expiry, split sides, extract the three markers, derive the two
smile parameters, sample the curve and replace NaN samples by zero. -/
def smilePipeline (df0 : List Quote) : Except Err (List ℚ) :=
  match selectEarliest df0 with
  | .error e => .error e
  | .ok df =>
      .ok (nanToZero (put_delta_aprx_raw
        (rr25D_iv (call_25D_iv (calls df)) (put_25D_iv (puts df)))
        (fly25D_iv (call_25D_iv (calls df)) (put_25D_iv (puts df)) (atm_iv df))
        (atm_iv df)))

/-- Modelled from the spec, for comparison in claim C5: the ATM marker with
the strike window centred on the raw (unrounded) mean underlying price, as
the claim words it. -/
def atm_iv_specWindow (df : List Quote) : Option ℚ :=
  (mean (df.map fun q => q.underlying_price)).bind fun m =>
    mean ((df.filter fun q =>
      decide (m - 10 ≤ q.strike ∧ q.strike ≤ m + 10)).map mid_iv)

/-- The amended reading of claim C5: the ATM window is centred on the
half-to-even rounded mean underlying price, stated with an absolute-distance
window. -/
def atm_iv_roundedWindow (df : List Quote) : Option ℚ :=
  (mean (df.map fun q => q.underlying_price)).bind fun m =>
    mean ((df.filter fun q =>
      decide (|q.strike - (roundHalfEven m : ℚ)| ≤ 10)).map mid_iv)

/-- A call quote with expiry timestamp 8 (counterexample data for C2). -/
def qExp8 : Quote :=
  { option_type := .call, strike := 100, bid_iv := 1/10, ask_iv := 3/10,
    underlying_price := 100, expiration_timestamp := 8, delta := 1/4 }

/-- A call quote with expiry timestamp 1 (counterexample data for C2). -/
def qExp1 : Quote :=
  { option_type := .call, strike := 100, bid_iv := 1/10, ask_iv := 3/10,
    underlying_price := 100, expiration_timestamp := 1, delta := 1/4 }

/-- Quote with strike 100 and mid-vol 3/10 at underlying 100.6
(counterexample data for C5). -/
def qW1 : Quote :=
  { option_type := .call, strike := 100, bid_iv := 1/5, ask_iv := 2/5,
    underlying_price := 503/5, expiration_timestamp := 5, delta := 1/4 }

/-- Quote with strike 110.8 and mid-vol 1/2 at underlying 100.6: inside the
window around `round(100.6) = 101` but outside the window around 100.6
(counterexample data for C5). -/
def qW2 : Quote :=
  { option_type := .call, strike := 554/5, bid_iv := 2/5, ask_iv := 3/5,
    underlying_price := 503/5, expiration_timestamp := 5, delta := 1/4 }

/-- A snapshot containing a single call quote and no put quotes, so the
25-delta put bucket is empty and its mean is NaN (failing input for C3). -/
def qOnlyCall : Quote :=
  { option_type := .call, strike := 100, bid_iv := 2/5, ask_iv := 3/5,
    underlying_price := 100, expiration_timestamp := 7, delta := 1/4 }

/-! ### Helper lemmas -/

/-- Evaluation rule for `roundHalfEven` below the midpoint. -/
theorem roundHalfEven_of_lt (q : ℚ) (f : ℤ) (hf : ⌊q⌋ = f) (h : q - f < 1/2) :
    roundHalfEven q = f := by
  unfold roundHalfEven
  rw [hf, if_pos h]

/-- Evaluation rule for `roundHalfEven` above the midpoint. -/
theorem roundHalfEven_of_gt (q : ℚ) (f : ℤ) (hf : ⌊q⌋ = f) (h : 1/2 < q - f) :
    roundHalfEven q = f + 1 := by
  unfold roundHalfEven
  rw [hf, if_neg (by linarith), if_pos h]

/-- Evaluation rule for `roundHalfEven` at a tie with even floor. -/
theorem roundHalfEven_of_tie_even (q : ℚ) (f : ℤ) (hf : ⌊q⌋ = f)
    (h : q - f = 1/2) (he : f % 2 = 0) : roundHalfEven q = f := by
  unfold roundHalfEven
  rw [hf, if_neg (by linarith), if_neg (by linarith), if_pos he]

/-- Evaluation rule for `roundHalfEven` at a tie with odd floor. -/
theorem roundHalfEven_of_tie_odd (q : ℚ) (f : ℤ) (hf : ⌊q⌋ = f)
    (h : q - f = 1/2) (ho : ¬ f % 2 = 0) : roundHalfEven q = f + 1 := by
  unfold roundHalfEven
  rw [hf, if_neg (by linarith), if_neg (by linarith), if_neg ho]

/-- The delta grid of the notebook: `np.arange(0.01, 1, 0.01)` is the list of
the 99 values `0.01 + i*0.01` for `i < 99`. -/
theorem npArange_grid :
    npArange (1/100) 1 (1/100)
      = (List.range 99).map fun i : ℕ => 1/100 + (i : ℚ) * (1/100) := by
  unfold npArange
  rw [show ⌈((1 : ℚ) - 1/100) / (1/100)⌉ = 99 by
    rw [show ((1 : ℚ) - 1/100) / (1/100) = 99 by norm_num]
    simp]
  rfl

/-- The delta grid has 99 points. -/
theorem npArange_grid_length : (npArange (1/100) 1 (1/100)).length = 99 := by
  rw [npArange_grid, List.length_map, List.length_range]

/-- NaN propagates through subtraction from the right. -/
theorem nsub_none_right (x : Option ℚ) : nsub x none = none := by
  cases x <;> rfl

/-- NaN propagates through addition from the right. -/
theorem nadd_none_right (x : Option ℚ) : nadd x none = none := by
  cases x <;> rfl

/-- A NaN 25-delta put marker makes the risk reversal NaN. -/
theorem rr25D_iv_none_right (c : Option ℚ) : rr25D_iv c none = none := by
  unfold rr25D_iv
  exact nsub_none_right c

/-- A NaN 25-delta put marker makes the butterfly NaN. -/
theorem fly25D_iv_none_mid (c a : Option ℚ) : fly25D_iv c none a = none := by
  unfold fly25D_iv
  rw [nadd_none_right]
  rfl

/-- With a NaN risk reversal every one of the 99 curve samples is NaN. -/
theorem put_delta_aprx_raw_rr_none (fly atm : Option ℚ) :
    put_delta_aprx_raw none fly atm = List.replicate 99 none := by
  unfold put_delta_aprx_raw
  rw [show (fun d : ℚ => put_delta_ivNaN d none fly atm)
        = fun _ : ℚ => (none : Option ℚ) from funext fun d => rfl]
  rw [List.map_const']
  rw [npArange_grid_length]

/-- The zero-coercion step turns a list of NaN samples into a list of zeros. -/
theorem nanToZero_replicate_none (n : ℕ) :
    nanToZero (List.replicate n none) = List.replicate n 0 := by
  unfold nanToZero
  rw [List.map_replicate]
  rfl

/-- Unfolding the pipeline after a successful expiry selection. -/
theorem smilePipeline_ok (df0 df : List Quote) (h : selectEarliest df0 = .ok df) :
    smilePipeline df0
      = .ok (nanToZero (put_delta_aprx_raw
          (rr25D_iv (call_25D_iv (calls df)) (put_25D_iv (puts df)))
          (fly25D_iv (call_25D_iv (calls df)) (put_25D_iv (puts df)) (atm_iv df))
          (atm_iv df))) := by
  unfold smilePipeline
  rw [h]

/-! ### Claims -/

/-- C1: for every delta in (0,1) and all real parameters, the Smile Evaluator
returns exactly `atm_iv + 2*risk_reversal*(delta - 0.5) + 16*butterfly*(delta - 0.5)^2`. -/
theorem evaluator_formula (delta rr fly atm : ℝ) (h0 : 0 < delta) (h1 : delta < 1) :
    put_delta_iv delta rr fly atm
      = atm + 2 * rr * (delta - 0.5) + 16 * fly * (delta - 0.5) ^ 2 := by
  unfold put_delta_iv
  norm_num

/-- Witness for C1 at `delta = 1/2`, `rr = 1`, `fly = 2`, `atm = 3`. -/
theorem evaluator_formula_witness :
    put_delta_iv (1/2 : ℝ) 1 2 3
      = 3 + 2 * 1 * ((1/2 : ℝ) - 0.5) + 16 * 2 * ((1/2 : ℝ) - 0.5) ^ 2 :=
  evaluator_formula (1/2) 1 2 3 (by norm_num) (by norm_num)

/-- C8: evaluating the Smile Evaluator at `delta = 0.5` returns exactly `atm`,
for all real `rr`, `fly`, `atm`. -/
theorem evaluator_at_half (rr fly atm : ℝ) :
    put_delta_iv (0.5 : ℝ) rr fly atm = atm := by
  unfold put_delta_iv
  norm_num

/-- C9: with `risk_reversal = 0` the Smile Evaluator is symmetric about
`delta = 0.5`: for every offset `d` keeping both points inside (0,1) and all
`fly`, `atm`, the values at `0.5 + d` and `0.5 - d` agree. -/
theorem evaluator_symmetric (d fly atm : ℝ)
    (h0 : 0 < 0.5 + d) (h1 : 0.5 + d < 1) (h2 : 0 < 0.5 - d) (h3 : 0.5 - d < 1) :
    put_delta_iv (0.5 + d) 0 fly atm = put_delta_iv (0.5 - d) 0 fly atm := by
  unfold put_delta_iv
  ring

/-- Witness for C9 at `d = 1/4`, `fly = 2`, `atm = 3`. -/
theorem evaluator_symmetric_witness :
    put_delta_iv ((0.5 : ℝ) + 1/4) 0 2 3 = put_delta_iv ((0.5 : ℝ) - 1/4) 0 2 3 :=
  evaluator_symmetric (1/4) 2 3 (by norm_num) (by norm_num) (by norm_num) (by norm_num)

/-- C6: from the markers, the Smile Parameter Calculator returns
`risk_reversal = call25_iv - put25_iv` and
`butterfly = (call25_iv + put25_iv)/2 - atm_iv`. -/
theorem parameter_calculator (a c p : ℚ) :
    rr25D_iv (some c) (some p) = some (c - p) ∧
    fly25D_iv (some c) (some p) (some a) = some ((c + p) / 2 - a) :=
  ⟨rfl, rfl⟩

/-- C7: sampling the smile curve over delta 0.01..0.99 in steps of 0.01
yields exactly 99 (delta, iv) points, the deltas strictly increase, and for
fixed parameters two runs of the sampling produce identical sequences. -/
theorem curve_sampling (rr fly atm : ℚ) :
    (sampled_curve rr fly atm).length = 99 ∧
    ((sampled_curve rr fly atm).map Prod.fst).Pairwise (· < ·) ∧
    sampled_curve rr fly atm = sampled_curve rr fly atm := by
  refine ⟨?_, ?_, rfl⟩
  · unfold sampled_curve
    rw [List.length_map, npArange_grid_length]
  · unfold sampled_curve
    rw [npArange_grid]
    simp only [List.map_map]
    refine List.Pairwise.map _ ?_ (List.pairwise_lt_range 99)
    intro a b hab
    show (1 : ℚ)/100 + (a : ℚ) * (1/100) < 1/100 + (b : ℚ) * (1/100)
    have hq : (a : ℚ) < b := by exact_mod_cast hab
    linarith

/-- C10: delta bucketing resolves exact ties half-to-even: a call delta of
exactly 0.25 and a put delta of exactly -0.25 are both assigned bucket 20
(not 30), while a delta of 0.35 is assigned bucket 40. -/
theorem bucket_ties_half_to_even :
    callBucket (25/100) = 20 ∧ putBucket (-(25/100)) = 20 ∧ callBucket (35/100) = 40 := by
  have hfloor52 : ⌊(5/2 : ℚ)⌋ = 2 := by
    rw [Int.floor_eq_iff]
    norm_num
  have hfloor72 : ⌊(7/2 : ℚ)⌋ = 3 := by
    rw [Int.floor_eq_iff]
    norm_num
  have h25 : callBucket (25/100) = 20 := by
    unfold callBucket
    rw [show (25 : ℚ)/100 * 100 / 10 = 5/2 by norm_num]
    rw [roundHalfEven_of_tie_even (5/2) 2 hfloor52 (by push_cast; norm_num) (by norm_num)]
    norm_num
  refine ⟨h25, ?_, ?_⟩
  · unfold putBucket
    rw [show |(-(25/100) : ℚ)| = 25/100 by
      rw [abs_neg]
      exact abs_of_nonneg (by norm_num)]
    exact h25
  · unfold callBucket
    rw [show (35 : ℚ)/100 * 100 / 10 = 7/2 by norm_num]
    rw [roundHalfEven_of_tie_odd (7/2) 3 hfloor72 (by push_cast; norm_num) (by norm_num)]
    norm_num

/-- C2 counterexample: on a snapshot whose distinct expiries enumerate as
[8, 1] the normalizer keeps expiry 8, the head of the enumeration, although
the minimum distinct expiry is 1, so the result is not the restriction to the
earliest expiry. -/
theorem earliest_expiry_counterexample :
    (maturities [qExp8, qExp1]).min? = some 1 ∧
    selectEarliest [qExp8, qExp1]
      = .ok ([qExp8, qExp1].filter fun q => q.expiration_timestamp == 8) ∧
    selectEarliest [qExp8, qExp1]
      ≠ .ok ([qExp8, qExp1].filter fun q => q.expiration_timestamp == 1) := by
  refine ⟨rfl, rfl, ?_⟩
  intro hcontra
  have h1 : selectEarliest [qExp8, qExp1] = .ok [qExp8] := rfl
  have h2 : ([qExp8, qExp1].filter fun q => q.expiration_timestamp == 1) = [qExp1] := rfl
  rw [h1, h2] at hcontra
  injection hcontra with h3
  injection h3 with h4 h5
  have h6 := congrArg Quote.expiration_timestamp h4
  simp only [qExp8, qExp1] at h6
  omega

/-- C2 amended: the Quote Normalizer restricts the collection to the expiry
at the head of the enumerated list of distinct expiry timestamps — an
implementation-defined enumeration order, not necessarily the minimum. -/
theorem earliest_expiry_amended (df : List Quote) (m : ℕ)
    (h : (maturities df).head? = some m) :
    selectEarliest df = .ok (df.filter fun q => q.expiration_timestamp == m) := by
  unfold selectEarliest
  rw [h]

/-- Witness for the amended C2 on the two-expiry snapshot [8, 1]. -/
theorem earliest_expiry_amended_witness :
    selectEarliest [qExp8, qExp1]
      = .ok ([qExp8, qExp1].filter fun q => q.expiration_timestamp == 8) :=
  earliest_expiry_amended [qExp8, qExp1] 8 rfl

/-- C4 counterexample: on the empty snapshot the expiry selection fails with
the index error of `maturities[0]`, not with an `EmptyInputError`. -/
theorem empty_input_counterexample :
    selectEarliest ([] : List Quote) = .error Err.indexError ∧
    selectEarliest ([] : List Quote) ≠ .error Err.emptyInputError := by
  refine ⟨rfl, ?_⟩
  intro h
  have h1 : selectEarliest ([] : List Quote) = .error Err.indexError := rfl
  rw [h1] at h
  injection h with h2
  exact Err.noConfusion h2

/-- C4 amended: with no quotes the normalizer fails with the `IndexError`
raised by `maturities[0]`; and because the selected expiry always comes from
the data itself, its restriction is never empty, so no missing-expiry failure
can arise (there is no requested-expiry parameter in the code). -/
theorem empty_input_amended :
    selectEarliest ([] : List Quote) = .error Err.indexError ∧
    ∀ (df : List Quote) (m : ℕ), (maturities df).head? = some m →
      df.filter (fun q => q.expiration_timestamp == m) ≠ [] := by
  refine ⟨rfl, ?_⟩
  intro df m h
  have hm : m ∈ maturities df := List.mem_of_mem_head? (by simp [h])
  have hm2 : m ∈ df.map fun q => q.expiration_timestamp := List.mem_dedup.mp hm
  obtain ⟨q, hq, hqm⟩ := List.mem_map.mp hm2
  exact List.ne_nil_of_mem (List.mem_filter.mpr ⟨hq, by simp [hqm]⟩)

/-- Witness for the amended C4 at the singleton snapshot with expiry 1. -/
theorem empty_input_amended_witness :
    [qExp1].filter (fun q => q.expiration_timestamp == 1) ≠ [] :=
  empty_input_amended.2 [qExp1] 1 rfl

/-- C5 counterexample: with quotes at strikes 100 and 110.8 and mean
underlying price 100.6, the code averages over the window [91, 111] around
round(100.6) = 101 and returns 2/5, while the claim's window [90.6, 110.6]
around the raw mean excludes strike 110.8 and yields 3/10. -/
theorem atm_window_counterexample :
    atm_iv [qW1, qW2] = some (2/5) ∧
    atm_iv_specWindow [qW1, qW2] = some (3/10) ∧
    atm_iv [qW1, qW2] ≠ atm_iv_specWindow [qW1, qW2] := by
  have hmean : mean ([qW1, qW2].map fun q => q.underlying_price) = some (503/5) := by
    norm_num [mean, qW1, qW2]
  have hfloor : ⌊(503/5 : ℚ)⌋ = 100 := by
    rw [Int.floor_eq_iff]
    norm_num
  have hround : roundHalfEven (503/5) = 101 := by
    rw [roundHalfEven_of_gt (503/5) 100 hfloor (by push_cast; norm_num)]
    norm_num
  have havg : avg_price [qW1, qW2] = some 101 := by
    unfold avg_price
    rw [hmean, Option.map_some', hround]
  have hatm : atm_iv [qW1, qW2] = some (2/5) := by
    unfold atm_iv
    rw [havg, Option.some_bind]
    norm_num [mean, mid_iv, qW1, qW2, List.filter_cons]
  have hspec : atm_iv_specWindow [qW1, qW2] = some (3/10) := by
    unfold atm_iv_specWindow
    rw [hmean, Option.some_bind]
    norm_num [mean, mid_iv, qW1, qW2, List.filter_cons]
  refine ⟨hatm, hspec, ?_⟩
  rw [hatm, hspec]
  intro hcontra
  injection hcontra with h2
  norm_num at h2

/-- C5 amended: the ATM marker equals the mean of mid_iv over all quotes
whose strike lies within ±10 price units of the half-to-even ROUNDED mean
underlying price across all quotes in scope. -/
theorem atm_window_amended (df : List Quote) :
    atm_iv df = atm_iv_roundedWindow df := by
  unfold atm_iv atm_iv_roundedWindow avg_price
  cases h : mean (df.map fun q => q.underlying_price) with
  | none => rfl
  | some mu =>
      rw [Option.map_some', Option.some_bind, Option.some_bind]
      congr 1
      congr 1
      apply List.filter_congr
      intro q _
      apply decide_eq_decide.mpr
      rw [abs_le]
      constructor
      · rintro ⟨ha, hb⟩
        constructor <;> linarith
      · rintro ⟨ha, hb⟩
        constructor <;> linarith

/-- C3: at a snapshot with no put quotes the 25-delta put marker is NaN, and
the pipeline silently outputs 99 zero samples — every NaN sample is coerced
to zero by the final list comprehension instead of being surfaced as an error
or sentinel. -/
theorem nan_sample_coerced_to_zero :
    put_25D_iv (puts [qOnlyCall]) = none ∧
    smilePipeline [qOnlyCall] = .ok (List.replicate 99 0) := by
  have hput : put_25D_iv (puts [qOnlyCall]) = none := rfl
  refine ⟨hput, ?_⟩
  rw [smilePipeline_ok [qOnlyCall] [qOnlyCall] rfl]
  rw [hput, rr25D_iv_none_right, fly25D_iv_none_mid]
  rw [put_delta_aprx_raw_rr_none, nanToZero_replicate_none]

end Malz
